import Mathlib

/-!
Shallow embedding of the `gatekeeper` repository: the zod validation
schemas of `src/lib/validation/auth-schema.ts` and the server action
handlers of the actions file (signup, signin, signOAuth, forgotPassword,
resetPassword, signout, getSession).  JavaScript strings are modelled as
Lean `String`, thrown values as an explicit `JsError` type, and the
supabase client as a `ProviderBehavior` oracle; each handler returns the
`Except`-value of its `try` block after the `catch`, paired with the list
of provider calls it performed.
-/

namespace Gatekeeper

/-- Splits a character list at every occurrence of `sep`, like
JavaScript's `String.split` on a one-character separator. -/
def splitOnChar (sep : Char) : List Char → List (List Char)
  | [] => [[]]
  | c :: rest =>
    let r := splitOnChar sep rest
    if c = sep then [] :: r
    else
      match r with
      | [] => [[c]]
      | h :: t => (c :: h) :: t

/-- Characters allowed as the final character of the local part of an
email address by the zod email regex: `[A-Z0-9_+\-]` with the `i` flag. -/
def isEmailAtomChar (c : Char) : Bool :=
  c.isAlphanum || c = '_' || c = '+' || c = '-'

/-- Characters allowed anywhere in the local part of an email address by
the zod email regex: `[A-Z0-9_'+\-\.]` with the `i` flag (code point 39
is the apostrophe). -/
def isEmailLocalChar (c : Char) : Bool :=
  isEmailAtomChar c || c.toNat = 39 || c = '.'

/-- Two consecutive dots somewhere in the list (the zod email regex
rejects any string containing `..` via a negative lookahead). -/
def hasDoubleDot : List Char → Bool
  | [] => false
  | [_] => false
  | a :: b :: rest => (a = '.' && b = '.') || hasDoubleDot (b :: rest)

/-- A domain label before the final dot: `[A-Z0-9][A-Z0-9\-]*` with the
`i` flag. -/
def labelOk (l : List Char) : Bool :=
  match l with
  | [] => false
  | c :: rest => c.isAlphanum && rest.all (fun d => d.isAlphanum || d = '-')

/-- The final domain label: `[A-Z]{2,}` with the `i` flag. -/
def tldOk (l : List Char) : Bool :=
  decide (2 ≤ l.length) && l.all Char.isAlpha

/-- The local part of the zod email regex:
`(?!\.)([A-Z0-9_'+\-\.]*)[A-Z0-9_+\-]` — nonempty, made of local
characters, not starting with a dot, ending in an atom character. -/
def localOk (l : List Char) : Bool :=
  match l with
  | [] => false
  | c :: _ =>
    !(c = '.') && l.all isEmailLocalChar &&
      (match l.getLast? with
       | some d => isEmailAtomChar d
       | none => false)

/-- The domain part of the zod email regex:
`([A-Z0-9][A-Z0-9\-]*\.)+[A-Z]{2,}`. -/
def domainOk (d : List Char) : Bool :=
  match (splitOnChar '.' d).reverse with
  | [] => false
  | tld :: labels => !(labels = []) && tldOk tld && labels.all labelOk

/-- `z.string().email()`: the zod email regex
`^(?!\.)(?!.*\.\.)([A-Z0-9_'+\-\.]*)[A-Z0-9_+\-]@([A-Z0-9][A-Z0-9\-]*\.)+[A-Z]{2,}$/i`
on the whole string.  The local and domain alphabets exclude `@`, so a
match splits the string at its unique `@`. -/
def isValidEmail (s : String) : Bool :=
  match splitOnChar '@' s.data with
  | [l, d] => !(hasDoubleDot s.data) && localOk l && domainOk d
  | _ => false

/-- The special-character class of the sign-up and reset password rules:
`[@$!%*?&]`. -/
def isSpecialChar (c : Char) : Bool :=
  c = '@' || c = '$' || c = '!' || c = '%' || c = '*' || c = '?' || c = '&'

/-- Issue messages of the `password` chain of `SignUpFormSchema`
(`auth-schema.ts` lines 6-18): zod runs every check of the chain and
collects the failing ones in order. -/
def signUpPasswordErrors (p : String) : List String :=
  (if p.length < 8 then ["Password must be at least 8 characters long"] else []) ++
  (if p.data.any Char.isUpper then []
   else ["Password must contain at least one uppercase letter"]) ++
  (if p.data.any Char.isLower then []
   else ["Password must contain at least one lowercase letter"]) ++
  (if p.data.any Char.isDigit then []
   else ["Password must contain at least one number"]) ++
  (if p.data.any isSpecialChar then []
   else ["Password must contain at least one special character (@$!%*?&)"])

/-- Issue messages of the `email` field of `SignUpFormSchema` and
`SignInFormSchema`. -/
def signUpEmailErrors (e : String) : List String :=
  if isValidEmail e then [] else ["Please enter a valid email"]

/-- Issue messages of the `password` field of `SignInFormSchema`
(`auth-schema.ts` line 48): minimum length 8, no character classes. -/
def signInPasswordErrors (p : String) : List String :=
  if p.length < 8 then ["Be at least 8 characters long"] else []

/-- Issue messages of the `password` chain of `ResetPasswordSchema`
(`auth-schema.ts` lines 59-71). -/
def resetPasswordErrors (p : String) : List String :=
  (if p.length < 8 then ["Be at least 8 characters long"] else []) ++
  (if p.data.any Char.isUpper then []
   else ["Must contain at least one uppercase letter"]) ++
  (if p.data.any Char.isLower then []
   else ["Must contain at least one lowercase letter"]) ++
  (if p.data.any Char.isDigit then []
   else ["Must contain at least one number"]) ++
  (if p.data.any isSpecialChar then []
   else ["Must contain at least one special character (@$!%*?&)"])

/-- Issue messages of the `email` field of `ForgotPasswordSchema`
(`auth-schema.ts` line 53). -/
def forgotEmailErrors (e : String) : List String :=
  if isValidEmail e then [] else ["Please enter valid email"]

/-- A runtime value of the TypeScript shape `{email, password}`.
JavaScript objects may carry properties beyond the declared ones; zod
object parsing in the default mode strips such unknown keys, so raw
input and parsed output are distinguished by the `extra` component. -/
structure CredPayload where
  email : String
  password : String
  extra : List (String × String)
deriving Repr, DecidableEq

/-- `error.flatten().fieldErrors` for the credential schemas: the
per-field lists of issue messages (an absent key is the empty list). -/
structure FieldErrors where
  email : List String
  password : List String
deriving Repr, DecidableEq

/-- `SignUpFormSchema.safeParse` (`auth-schema.ts` lines 4-19): both
fields are checked, all issues are collected, and on success the unknown
keys are stripped from the output. -/
def SignUpFormSchema_safeParse (v : CredPayload) :
    Except FieldErrors CredPayload :=
  let ee := signUpEmailErrors v.email
  let pe := signUpPasswordErrors v.password
  if ee = [] ∧ pe = [] then
    .ok { email := v.email, password := v.password, extra := [] }
  else
    .error { email := ee, password := pe }

/-- `SignInFormSchema.safeParse` (`auth-schema.ts` lines 46-49). -/
def SignInFormSchema_safeParse (v : CredPayload) :
    Except FieldErrors CredPayload :=
  let ee := signUpEmailErrors v.email
  let pe := signInPasswordErrors v.password
  if ee = [] ∧ pe = [] then
    .ok { email := v.email, password := v.password, extra := [] }
  else
    .error { email := ee, password := pe }

/-- A runtime value of the shape `{email}` accepted by
`ForgotPasswordSchema`. -/
structure ForgotInput where
  email : String
deriving Repr, DecidableEq

/-- `ForgotPasswordSchema.safeParse` (`auth-schema.ts` lines 52-54). -/
def ForgotPasswordSchema_safeParse (v : ForgotInput) :
    Except (List String) ForgotInput :=
  let ee := forgotEmailErrors v.email
  if ee = [] then .ok { email := v.email } else .error ee

/-- A runtime value of the shape `{password, confirmPassword}` accepted
by `ResetPasswordSchema`. -/
structure ResetInput where
  password : String
  confirmPassword : String
deriving Repr, DecidableEq

/-- `error.flatten().fieldErrors` for `ResetPasswordSchema`. -/
structure ResetFieldErrors where
  password : List String
  confirmPassword : List String
deriving Repr, DecidableEq

/-- `ResetPasswordSchema.safeParse` (`auth-schema.ts` lines 57-77): the
object fields are checked first; the `.refine` equality check runs only
when the base object parse succeeds, and its issue is recorded under the
`confirmPassword` path with message "Password don't match". -/
def ResetPasswordSchema_safeParse (v : ResetInput) :
    Except ResetFieldErrors ResetInput :=
  let pe := resetPasswordErrors v.password
  if pe = [] then
    if v.password = v.confirmPassword then
      .ok { password := v.password, confirmPassword := v.confirmPassword }
    else
      .error { password := [], confirmPassword := ["Password don't match"] }
  else
    .error { password := pe, confirmPassword := [] }

/-- An opaque identity-provider user record (supabase `User`); the
handlers only forward it. -/
structure User where
  id : String
deriving Repr, DecidableEq

/-- A thrown JavaScript value as the handlers discriminate it:
`instanceof AuthError` with its message, or anything else. -/
inductive JsError where
  | authError (message : String)
  | other (tag : String)
deriving Repr, DecidableEq

/-- The message selection of every `catch` block:
`error instanceof AuthError ? error.message : fallback`. -/
def errMessage (e : JsError) (fallback : String) : String :=
  match e with
  | .authError m => m
  | .other _ => fallback

/-- One invocation of a supabase auth operation, with the arguments the
handler passed. -/
inductive ProviderCall where
  | signUpCall (payload : CredPayload)
  | signInWithPassword (payload : CredPayload)
  | signInWithOAuth (provider : String) (redirectTo : String)
  | resetPasswordForEmail (email : String) (redirectTo : String)
  | updateUser (password : String)
  | signOutCall
  | getUserCall
deriving Repr, DecidableEq

/-- The behaviour of the supabase client for one handler invocation.  A
`.error` value covers both an error object returned by the call (which
the handlers re-throw via `if (error) throw error`) and an exception
thrown by the call itself; both land in the same `catch`.  The `Bool`
of the OAuth operation is the truthiness of its `data` result. -/
structure ProviderBehavior where
  signUpResult : CredPayload → Except JsError Unit
  signInWithPasswordResult : CredPayload → Except JsError Unit
  signInWithOAuthResult : String → String → Except JsError Bool
  resetPasswordForEmailResult : String → String → Except JsError Unit
  updateUserResult : String → Except JsError Unit
  signOutResult : Except JsError Unit
  getUserResult : Except JsError (Option User)

/-- The `AuthResponse` envelope of the actions file: `zod_errors` is an
optional field. -/
structure AuthResponse where
  success : Bool
  message : String
  zod_errors : Option FieldErrors
deriving Repr, DecidableEq

/-- The `AuthSessionResponse` envelope returned by `getSession`. -/
structure AuthSessionResponse where
  success : Bool
  message : String
  user : Option User
deriving Repr, DecidableEq

/-- A `try { body } catch (e) { handler e }` statement whose catch block
does not throw: an exception of the body is demoted to the catch
block's return value. -/
def tryCatch {α : Type} (body : Except JsError α) (hnd : JsError → α) :
    Except JsError α :=
  match body with
  | .ok a => .ok a
  | .error e => .ok (hnd e)

/-- The `try` block of `signup`: validate, and on success call
`supabase.auth.signUp(validatedFields.data)`, re-throwing its error.
The second component is the trace of provider calls. -/
def signupBody (pb : ProviderBehavior) (values : CredPayload) :
    Except JsError AuthResponse × List ProviderCall :=
  match SignUpFormSchema_safeParse values with
  | .error fe =>
    (.ok { success := false, message := "Form validation error",
           zod_errors := some fe }, [])
  | .ok data =>
    match pb.signUpResult data with
    | .error e => (.error e, [.signUpCall data])
    | .ok _ =>
      (.ok { success := true,
             message := "Account creation successful. Check email to verify.",
             zod_errors := none }, [.signUpCall data])

/-- The `catch` block of `signup`. -/
def signupCatch (e : JsError) : AuthResponse :=
  { success := false, message := errMessage e "Error while sign up",
    zod_errors := none }

/-- The `signup` server action. -/
def signup (pb : ProviderBehavior) (values : CredPayload) :
    Except JsError AuthResponse × List ProviderCall :=
  let r := signupBody pb values
  (tryCatch r.1 signupCatch, r.2)

/-- The `try` block of `signin`: validate, and on success call
`supabase.auth.signInWithPassword(values)` — note the raw `values`, not
`validatedFields.data`. -/
def signinBody (pb : ProviderBehavior) (values : CredPayload) :
    Except JsError AuthResponse × List ProviderCall :=
  match SignInFormSchema_safeParse values with
  | .error fe =>
    (.ok { success := false, message := "Form validation error",
           zod_errors := some fe }, [])
  | .ok _ =>
    match pb.signInWithPasswordResult values with
    | .error e => (.error e, [.signInWithPassword values])
    | .ok _ =>
      (.ok { success := true, message := "Sign in successful",
             zod_errors := none }, [.signInWithPassword values])

/-- The `catch` block of `signin`. -/
def signinCatch (e : JsError) : AuthResponse :=
  { success := false, message := errMessage e "Sign in failed",
    zod_errors := none }

/-- The `signin` server action. -/
def signin (pb : ProviderBehavior) (values : CredPayload) :
    Except JsError AuthResponse × List ProviderCall :=
  let r := signinBody pb values
  (tryCatch r.1 signinCatch, r.2)

/-- The `try` block of `signOAuth`: calls
`supabase.auth.signInWithOAuth({provider, options: {redirectTo: ""}})`,
throws its error, and returns a failure envelope when `data` is falsy.
`env` is the ambient `process.env.NEXT_PUBLIC_APP_URL`, which this
handler never reads. -/
def signOAuthBody (env : String) (pb : ProviderBehavior)
    (provider : String) : Except JsError AuthResponse × List ProviderCall :=
  let _ := env
  match pb.signInWithOAuthResult provider "" with
  | .error e => (.error e, [.signInWithOAuth provider ""])
  | .ok data =>
    if data then
      (.ok { success := true, message := "OAuth signin successful",
             zod_errors := none }, [.signInWithOAuth provider ""])
    else
      (.ok { success := false, message := "Failed to initiate OAuth signin",
             zod_errors := none }, [.signInWithOAuth provider ""])

/-- The `catch` block of `signOAuth`. -/
def signOAuthCatch (e : JsError) : AuthResponse :=
  { success := false, message := errMessage e "OAuth signin error",
    zod_errors := none }

/-- The `signOAuth` server action. -/
def signOAuth (env : String) (pb : ProviderBehavior) (provider : String) :
    Except JsError AuthResponse × List ProviderCall :=
  let r := signOAuthBody env pb provider
  (tryCatch r.1 signOAuthCatch, r.2)

/-- The `try` block of `forgotPassword`: calls
`supabase.auth.resetPasswordForEmail(email.email, {redirectTo:
NEXT_PUBLIC_APP_URL + "/reset-password"})` without running
`ForgotPasswordSchema`.  `env` is `process.env.NEXT_PUBLIC_APP_URL`. -/
def forgotPasswordBody (env : String) (pb : ProviderBehavior)
    (email : ForgotInput) : Except JsError AuthResponse × List ProviderCall :=
  let redirect := env ++ "/reset-password"
  match pb.resetPasswordForEmailResult email.email redirect with
  | .error e => (.error e, [.resetPasswordForEmail email.email redirect])
  | .ok _ =>
    (.ok { success := true, message := "Reset link sent. Please check.",
           zod_errors := none }, [.resetPasswordForEmail email.email redirect])

/-- The `catch` block of `forgotPassword`. -/
def forgotPasswordCatch (e : JsError) : AuthResponse :=
  { success := false,
    message := errMessage e "Error occured while sending reset password link",
    zod_errors := none }

/-- The `forgotPassword` server action. -/
def forgotPassword (env : String) (pb : ProviderBehavior)
    (email : ForgotInput) : Except JsError AuthResponse × List ProviderCall :=
  let r := forgotPasswordBody env pb email
  (tryCatch r.1 forgotPasswordCatch, r.2)

/-- The `try` block of `resetPassword`: calls
`supabase.auth.updateUser({password: newPassword.password})` without
running `ResetPasswordSchema`. -/
def resetPasswordBody (pb : ProviderBehavior) (newPassword : ResetInput) :
    Except JsError AuthResponse × List ProviderCall :=
  match pb.updateUserResult newPassword.password with
  | .error e => (.error e, [.updateUser newPassword.password])
  | .ok _ =>
    (.ok { success := true,
           message := "Password reset successful. Please Sign in.",
           zod_errors := none }, [.updateUser newPassword.password])

/-- The `catch` block of `resetPassword`. -/
def resetPasswordCatch (e : JsError) : AuthResponse :=
  { success := false, message := errMessage e "Error while updating password",
    zod_errors := none }

/-- The `resetPassword` server action. -/
def resetPassword (pb : ProviderBehavior) (newPassword : ResetInput) :
    Except JsError AuthResponse × List ProviderCall :=
  let r := resetPasswordBody pb newPassword
  (tryCatch r.1 resetPasswordCatch, r.2)

/-- The `try` block of `signout`: calls `supabase.auth.signOut()`. -/
def signoutBody (pb : ProviderBehavior) :
    Except JsError AuthResponse × List ProviderCall :=
  match pb.signOutResult with
  | .error e => (.error e, [.signOutCall])
  | .ok _ =>
    (.ok { success := true, message := "Sign out successful",
           zod_errors := none }, [.signOutCall])

/-- The `catch` block of `signout`. -/
def signoutCatch (e : JsError) : AuthResponse :=
  { success := false, message := errMessage e "Error occured while sign out",
    zod_errors := none }

/-- The `signout` server action. -/
def signout (pb : ProviderBehavior) :
    Except JsError AuthResponse × List ProviderCall :=
  let r := signoutBody pb
  (tryCatch r.1 signoutCatch, r.2)

/-- The `try` block of `getSession`: calls `supabase.auth.getUser()`,
throws its error and otherwise returns the (possibly null) user. -/
def getSessionBody (pb : ProviderBehavior) :
    Except JsError AuthSessionResponse × List ProviderCall :=
  match pb.getUserResult with
  | .error e => (.error e, [.getUserCall])
  | .ok u =>
    (.ok { success := true, message := "Fetching user sesssion successful",
           user := u }, [.getUserCall])

/-- The `catch` block of `getSession`: the failure envelope carries
`user: null`. -/
def getSessionCatch (e : JsError) : AuthSessionResponse :=
  { success := false, message := errMessage e "Error fetching session",
    user := none }

/-- The `getSession` server action. -/
def getSession (pb : ProviderBehavior) :
    Except JsError AuthSessionResponse × List ProviderCall :=
  let r := getSessionBody pb
  (tryCatch r.1 getSessionCatch, r.2)

/-- A provider behaviour where every operation succeeds: OAuth returns a
truthy `data` and `getUser` reports no authenticated user. -/
def pbAllOk : ProviderBehavior where
  signUpResult := fun _ => .ok ()
  signInWithPasswordResult := fun _ => .ok ()
  signInWithOAuthResult := fun _ _ => .ok true
  resetPasswordForEmailResult := fun _ _ => .ok ()
  updateUserResult := fun _ => .ok ()
  signOutResult := .ok ()
  getUserResult := .ok none

/-- A provider behaviour where every operation fails with the thrown
value `e`. -/
def pbThrow (e : JsError) : ProviderBehavior where
  signUpResult := fun _ => .error e
  signInWithPasswordResult := fun _ => .error e
  signInWithOAuthResult := fun _ _ => .error e
  resetPasswordForEmailResult := fun _ _ => .error e
  updateUserResult := fun _ => .error e
  signOutResult := .error e
  getUserResult := .error e

/-- Concrete raw input failing both credential schemas. -/
def badCred : CredPayload := { email := "x", password := "a", extra := [] }

/-- Concrete raw input passing both credential schemas, with no unknown
keys. -/
def goodCred : CredPayload :=
  { email := "a@b.com", password := "Abcdef1!", extra := [] }

/-- Concrete raw input passing the sign-in schema while carrying an
unknown key that zod strips. -/
def extraCred : CredPayload :=
  { email := "a@b.com", password := "longpassword1", extra := [("k", "v")] }

theorem tryCatch_exists {α : Type} (body : Except JsError α)
    (hnd : JsError → α) : ∃ a, tryCatch body hnd = .ok a := by
  cases body with
  | ok a => exact ⟨a, rfl⟩
  | error e => exact ⟨hnd e, rfl⟩

theorem isUpper_iff (c : Char) : c.isUpper = true ↔ 'A' ≤ c ∧ c ≤ 'Z' := by
  simp [Char.isUpper, Char.le_def]

theorem isLower_iff (c : Char) : c.isLower = true ↔ 'a' ≤ c ∧ c ≤ 'z' := by
  simp [Char.isLower, Char.le_def]

theorem isDigit_iff (c : Char) : c.isDigit = true ↔ '0' ≤ c ∧ c ≤ '9' := by
  simp [Char.isDigit, Char.le_def]

theorem isSpecialChar_iff (c : Char) :
    isSpecialChar c = true ↔ c ∈ ['@', '$', '!', '%', '*', '?', '&'] := by
  simp only [isSpecialChar, Bool.or_eq_true, decide_eq_true_eq,
             List.mem_cons, List.not_mem_nil, or_false]
  tauto

theorem signUpPasswordErrors_nil_iff (p : String) :
    signUpPasswordErrors p = [] ↔
      (8 ≤ p.length ∧ (∃ c ∈ p.data, 'A' ≤ c ∧ c ≤ 'Z') ∧
       (∃ c ∈ p.data, 'a' ≤ c ∧ c ≤ 'z') ∧
       (∃ c ∈ p.data, '0' ≤ c ∧ c ≤ '9') ∧
       (∃ c ∈ p.data, c ∈ ['@', '$', '!', '%', '*', '?', '&'])) := by
  rw [signUpPasswordErrors]
  split_ifs <;>
    simp_all [List.any_eq_true, isUpper_iff, isLower_iff, isDigit_iff,
              isSpecialChar_iff, Nat.not_lt, Nat.lt_iff_add_one_le]

/-- C1 (counterexample): `forgotPassword` on an input that fails
`ForgotPasswordSchema` validation does contact the provider and returns
a success envelope, refuting the claim that every credential-input
handler first validates and short-circuits on failure. -/
theorem C1_counterexample :
    (ForgotPasswordSchema_safeParse { email := "not-an-email" }).isOk = false ∧
    forgotPassword "https://app.example" pbAllOk { email := "not-an-email" } =
      (.ok { success := true, message := "Reset link sent. Please check.",
             zod_errors := none },
       [.resetPasswordForEmail "not-an-email"
          "https://app.example/reset-password"]) := by
  exact ⟨by decide, by rfl⟩

/-- C1 (amended): for `signup` and `signin`, when the matching schema's
`safeParse` fails the handler returns `{success: false, message: "Form
validation error", zod_errors: <field map>}` and performs no provider
call; `forgotPassword` and `resetPassword` never run their validators. -/
theorem C1_signup_signin_validation (pb : ProviderBehavior)
    (v w : CredPayload) (fe ge : FieldErrors)
    (hv : SignUpFormSchema_safeParse v = .error fe)
    (hw : SignInFormSchema_safeParse w = .error ge) :
    signup pb v =
      (.ok { success := false, message := "Form validation error",
             zod_errors := some fe }, []) ∧
    signin pb w =
      (.ok { success := false, message := "Form validation error",
             zod_errors := some ge }, []) := by
  constructor
  · simp [signup, signupBody, hv, tryCatch]
  · simp [signin, signinBody, hw, tryCatch]

/-- C1 (witness): the amended theorem applied to the concrete invalid
input `{email: "x", password: "a"}`. -/
theorem C1_witness :
    signup pbAllOk badCred =
      (.ok { success := false, message := "Form validation error",
             zod_errors := some
               { email := ["Please enter a valid email"],
                 password :=
                   ["Password must be at least 8 characters long",
                    "Password must contain at least one uppercase letter",
                    "Password must contain at least one number",
                    "Password must contain at least one special character (@$!%*?&)"] } },
       []) ∧
    signin pbAllOk badCred =
      (.ok { success := false, message := "Form validation error",
             zod_errors := some
               { email := ["Please enter a valid email"],
                 password := ["Be at least 8 characters long"] } },
       []) :=
  C1_signup_signin_validation pbAllOk badCred badCred
    { email := ["Please enter a valid email"],
      password :=
        ["Password must be at least 8 characters long",
         "Password must contain at least one uppercase letter",
         "Password must contain at least one number",
         "Password must contain at least one special character (@$!%*?&)"] }
    { email := ["Please enter a valid email"],
      password := ["Be at least 8 characters long"] }
    (by rfl) (by rfl)

/-- C2 (counterexample): a sign-in input carrying an unknown key passes
validation, and the handler forwards the raw input object — which
differs from the validator's normalized output — to the provider,
refuting the claim that every handler forwards the normalized value. -/
theorem C2_counterexample :
    SignInFormSchema_safeParse extraCred =
      .ok { email := "a@b.com", password := "longpassword1", extra := [] } ∧
    (signin pbAllOk extraCred).2 = [.signInWithPassword extraCred] ∧
    extraCred ≠ { email := "a@b.com", password := "longpassword1", extra := [] } := by
  exact ⟨by rfl, by rfl, by decide⟩

/-- C2 (amended): on validation success every handler performs exactly
one provider call; `signup` forwards the validator's normalized output,
while `signin` forwards the raw input object, and `forgotPassword` and
`resetPassword` forward fields of the raw input without consulting
their validators. -/
theorem C2_valid_input_one_call (pb : ProviderBehavior)
    (v w d d' : CredPayload) (env : String) (f : ForgotInput)
    (r : ResetInput)
    (hv : SignUpFormSchema_safeParse v = .ok d)
    (hw : SignInFormSchema_safeParse w = .ok d') :
    (signup pb v).2 = [.signUpCall d] ∧
    (signin pb w).2 = [.signInWithPassword w] ∧
    (forgotPassword env pb f).2 =
      [.resetPasswordForEmail f.email (env ++ "/reset-password")] ∧
    (resetPassword pb r).2 = [.updateUser r.password] := by
  refine ⟨?_, ?_, ?_, ?_⟩
  · simp only [signup, signupBody, hv]
    cases pb.signUpResult d <;> rfl
  · simp only [signin, signinBody, hw]
    cases pb.signInWithPasswordResult w <;> rfl
  · simp only [forgotPassword, forgotPasswordBody]
    cases pb.resetPasswordForEmailResult f.email (env ++ "/reset-password") <;> rfl
  · simp only [resetPassword, resetPasswordBody]
    cases pb.updateUserResult r.password <;> rfl

/-- C2 (witness): the amended theorem applied at concrete valid
inputs. -/
theorem C2_witness :
    (signup pbAllOk goodCred).2 = [.signUpCall goodCred] ∧
    (signin pbAllOk extraCred).2 = [.signInWithPassword extraCred] ∧
    (forgotPassword "https://app.example" pbAllOk { email := "a@b.com" }).2 =
      [.resetPasswordForEmail "a@b.com" "https://app.example/reset-password"] ∧
    (resetPassword pbAllOk
        { password := "Abcdef1!", confirmPassword := "Abcdef1!" }).2 =
      [.updateUser "Abcdef1!"] :=
  C2_valid_input_one_call pbAllOk goodCred extraCred goodCred
    { email := "a@b.com", password := "longpassword1", extra := [] }
    "https://app.example" { email := "a@b.com" }
    { password := "Abcdef1!", confirmPassword := "Abcdef1!" }
    (by rfl) (by rfl)

/-- C3 (counterexample): the reset-password flow on the mismatched pair
`password: "Abcdef1!"`, `confirmPassword: "Abcdef2!"` yields no
validation failure at all — the handler never runs the schema, calls
the provider with the new password and returns a success envelope. -/
theorem C3_counterexample :
    (ResetPasswordSchema_safeParse
        { password := "Abcdef1!", confirmPassword := "Abcdef2!" }).isOk = false ∧
    resetPassword pbAllOk
        { password := "Abcdef1!", confirmPassword := "Abcdef2!" } =
      (.ok { success := true,
             message := "Password reset successful. Please Sign in.",
             zod_errors := none },
       [.updateUser "Abcdef1!"]) := by
  exact ⟨by decide, by rfl⟩

/-- C3 (amended): `ResetPasswordSchema` itself reports a
password/confirmPassword mismatch solely against `confirmPassword` with
message "Password don't match" (the `password` entry stays empty)
whenever the password satisfies every character rule; the
`resetPassword` handler, however, does not run the schema and always
forwards the password to the provider. -/
theorem C3_reset_schema_mismatch (p c : String)
    (hp : resetPasswordErrors p = []) (hne : p ≠ c) :
    ResetPasswordSchema_safeParse { password := p, confirmPassword := c } =
      .error { password := [], confirmPassword := ["Password don't match"] } ∧
    ∀ pb : ProviderBehavior,
      (resetPassword pb { password := p, confirmPassword := c }).2 =
        [.updateUser p] := by
  constructor
  · simp [ResetPasswordSchema_safeParse, hp, hne]
  · intro pb
    simp only [resetPassword, resetPasswordBody]
    cases pb.updateUserResult p <;> rfl

/-- C3 (witness): the amended theorem applied to the concrete pair
`"Abcdef1!"` / `"Abcdef2!"`. -/
theorem C3_witness :
    ResetPasswordSchema_safeParse
        { password := "Abcdef1!", confirmPassword := "Abcdef2!" } =
      .error { password := [], confirmPassword := ["Password don't match"] } ∧
    ∀ pb : ProviderBehavior,
      (resetPassword pb { password := "Abcdef1!", confirmPassword := "Abcdef2!" }).2 =
        [.updateUser "Abcdef1!"] :=
  C3_reset_schema_mismatch "Abcdef1!" "Abcdef2!" (by decide) (by decide)

/-- C4: when the provider call fails with thrown value `e`, every
handler returns a `success: false` envelope whose message is the
provider's own message when `e` is a recognized auth error
(`instanceof AuthError`) and the handler-specific fallback string
otherwise. -/
theorem C4_provider_error_envelope (e : JsError) (v w d d' : CredPayload)
    (env pName : String) (f : ForgotInput) (r : ResetInput)
    (hv : SignUpFormSchema_safeParse v = .ok d)
    (hw : SignInFormSchema_safeParse w = .ok d') :
    (signup (pbThrow e) v).1 =
      .ok { success := false, message := errMessage e "Error while sign up",
            zod_errors := none } ∧
    (signin (pbThrow e) w).1 =
      .ok { success := false, message := errMessage e "Sign in failed",
            zod_errors := none } ∧
    (signOAuth env (pbThrow e) pName).1 =
      .ok { success := false, message := errMessage e "OAuth signin error",
            zod_errors := none } ∧
    (forgotPassword env (pbThrow e) f).1 =
      .ok { success := false,
            message := errMessage e "Error occured while sending reset password link",
            zod_errors := none } ∧
    (resetPassword (pbThrow e) r).1 =
      .ok { success := false,
            message := errMessage e "Error while updating password",
            zod_errors := none } ∧
    (signout (pbThrow e)).1 =
      .ok { success := false,
            message := errMessage e "Error occured while sign out",
            zod_errors := none } ∧
    (getSession (pbThrow e)).1 =
      .ok { success := false, message := errMessage e "Error fetching session",
            user := none } := by
  refine ⟨?_, ?_, ?_, ?_, ?_, ?_, ?_⟩
  · simp [signup, signupBody, hv, pbThrow, tryCatch, signupCatch]
  · simp [signin, signinBody, hw, pbThrow, tryCatch, signinCatch]
  · simp [signOAuth, signOAuthBody, pbThrow, tryCatch, signOAuthCatch]
  · simp [forgotPassword, forgotPasswordBody, pbThrow, tryCatch,
          forgotPasswordCatch]
  · simp [resetPassword, resetPasswordBody, pbThrow, tryCatch,
          resetPasswordCatch]
  · simp [signout, signoutBody, pbThrow, tryCatch, signoutCatch]
  · simp [getSession, getSessionBody, pbThrow, tryCatch, getSessionCatch]

/-- C4 (witness): a recognized auth error with message "Invalid login
credentials" makes `signin` return exactly that message. -/
theorem C4_witness :
    (signin (pbThrow (.authError "Invalid login credentials")) goodCred).1 =
      .ok { success := false, message := "Invalid login credentials",
            zod_errors := none } :=
  (C4_provider_error_envelope (.authError "Invalid login credentials")
    goodCred goodCred goodCred goodCred "https://app.example" "google"
    { email := "a@b.com" }
    { password := "Abcdef1!", confirmPassword := "Abcdef1!" }
    (by rfl) (by rfl)).2.1

/-- C5: no handler ever propagates an exception: for every provider
behaviour and every input, the `try`/`catch` of each handler yields an
`ok` envelope, never an escaping `error`. -/
theorem C5_no_exception_escapes (env pName : String) (pb : ProviderBehavior)
    (v w : CredPayload) (f : ForgotInput) (r : ResetInput) :
    (∃ a, (signup pb v).1 = .ok a) ∧
    (∃ a, (signin pb w).1 = .ok a) ∧
    (∃ a, (signOAuth env pb pName).1 = .ok a) ∧
    (∃ a, (forgotPassword env pb f).1 = .ok a) ∧
    (∃ a, (resetPassword pb r).1 = .ok a) ∧
    (∃ a, (signout pb).1 = .ok a) ∧
    (∃ a, (getSession pb).1 = .ok a) :=
  ⟨tryCatch_exists _ _, tryCatch_exists _ _, tryCatch_exists _ _,
   tryCatch_exists _ _, tryCatch_exists _ _, tryCatch_exists _ _,
   tryCatch_exists _ _⟩

/-- C7: when the provider reports no error and a null user, `getSession`
returns `{success: true, user: null}` (with its fixed message). -/
theorem C7_getSession_null_user (pb : ProviderBehavior)
    (h : pb.getUserResult = .ok none) :
    getSession pb =
      (.ok { success := true, message := "Fetching user sesssion successful",
             user := none }, [.getUserCall]) := by
  simp [getSession, getSessionBody, h, tryCatch]

/-- C7 (witness): the theorem applied to the all-ok behaviour, whose
`getUser` returns no user. -/
theorem C7_witness :
    getSession pbAllOk =
      (.ok { success := true, message := "Fetching user sesssion successful",
             user := none }, [.getUserCall]) :=
  C7_getSession_null_user pbAllOk rfl

/-- C6: for any syntactically valid email, the sign-up schema accepts a
password exactly when it has at least 8 characters, an uppercase
letter, a lowercase letter, a digit and a character from `@$!%*?&`;
and the password "abc" produces exactly the minimum-length, uppercase,
digit and special-character messages, in order, without the lowercase
message. -/
theorem C6_signup_password_rules (e p : String) (he : isValidEmail e = true) :
    ((SignUpFormSchema_safeParse
        { email := e, password := p, extra := [] }).isOk = true ↔
      (8 ≤ p.length ∧ (∃ c ∈ p.data, 'A' ≤ c ∧ c ≤ 'Z') ∧
       (∃ c ∈ p.data, 'a' ≤ c ∧ c ≤ 'z') ∧
       (∃ c ∈ p.data, '0' ≤ c ∧ c ≤ '9') ∧
       (∃ c ∈ p.data, c ∈ ['@', '$', '!', '%', '*', '?', '&']))) ∧
    signUpPasswordErrors "abc" =
      ["Password must be at least 8 characters long",
       "Password must contain at least one uppercase letter",
       "Password must contain at least one number",
       "Password must contain at least one special character (@$!%*?&)"] := by
  constructor
  · rw [← signUpPasswordErrors_nil_iff]
    simp only [SignUpFormSchema_safeParse, signUpEmailErrors, he, if_true,
               true_and]
    split_ifs with h <;> simp_all [Except.isOk, Except.toBool]
  · decide

/-- C6 (witness): the rule characterization evaluated at the concrete
email "a@b.com" and password "Abcdef1!". -/
theorem C6_witness :
    ((SignUpFormSchema_safeParse
        { email := "a@b.com", password := "Abcdef1!", extra := [] }).isOk = true ↔
      (8 ≤ ("Abcdef1!" : String).length ∧
       (∃ c ∈ ("Abcdef1!" : String).data, 'A' ≤ c ∧ c ≤ 'Z') ∧
       (∃ c ∈ ("Abcdef1!" : String).data, 'a' ≤ c ∧ c ≤ 'z') ∧
       (∃ c ∈ ("Abcdef1!" : String).data, '0' ≤ c ∧ c ≤ '9') ∧
       (∃ c ∈ ("Abcdef1!" : String).data, c ∈ ['@', '$', '!', '%', '*', '?', '&']))) ∧
    signUpPasswordErrors "abc" =
      ["Password must be at least 8 characters long",
       "Password must contain at least one uppercase letter",
       "Password must contain at least one number",
       "Password must contain at least one special character (@$!%*?&)"] :=
  C6_signup_password_rules "a@b.com" "Abcdef1!" (by decide)

/-- C8: every `getSession` envelope with `success: false` carries
`user: null`; a failure envelope never holds a user record. -/
theorem C8_getSession_failure_null_user (pb : ProviderBehavior)
    (r : AuthSessionResponse) (hr : (getSession pb).1 = .ok r)
    (hs : r.success = false) : r.user = none := by
  unfold getSession getSessionBody at hr
  cases h : pb.getUserResult with
  | ok u =>
    rw [h] at hr
    simp only [tryCatch, Except.ok.injEq] at hr
    rw [← hr] at hs
    simp at hs
  | error e =>
    rw [h] at hr
    simp only [tryCatch, Except.ok.injEq] at hr
    rw [← hr]
    rfl

/-- C8 (witness): the theorem applied to a behaviour whose `getUser`
throws a non-auth exception. -/
theorem C8_witness :
    (getSession (pbThrow (.other "boom"))).1 =
      .ok { success := false, message := "Error fetching session",
            user := none } ∧
    ({ success := false, message := "Error fetching session",
       user := none } : AuthSessionResponse).user = none :=
  ⟨rfl, C8_getSession_failure_null_user (pbThrow (.other "boom"))
          { success := false, message := "Error fetching session",
            user := none } rfl rfl⟩

/-- C9: for `signup` and `signin`, the returned envelope carries
`zod_errors` exactly when schema validation failed, and any envelope
carrying `zod_errors` has `success: false` with message
"Form validation error". -/
theorem C9_zod_errors_validation (pb : ProviderBehavior) (v w : CredPayload)
    (r s : AuthResponse)
    (hr : (signup pb v).1 = .ok r) (hs : (signin pb w).1 = .ok s) :
    ((r.zod_errors.isSome = true ↔ (SignUpFormSchema_safeParse v).isOk = false) ∧
     (r.zod_errors.isSome = true →
        r.success = false ∧ r.message = "Form validation error")) ∧
    ((s.zod_errors.isSome = true ↔ (SignInFormSchema_safeParse w).isOk = false) ∧
     (s.zod_errors.isSome = true →
        s.success = false ∧ s.message = "Form validation error")) := by
  constructor
  · unfold signup signupBody at hr
    cases hp : SignUpFormSchema_safeParse v with
    | error fe =>
      rw [hp] at hr
      simp only [tryCatch, Except.ok.injEq] at hr
      rw [← hr]
      simp [hp, Except.isOk, Except.toBool]
    | ok d =>
      rw [hp] at hr
      cases hq : pb.signUpResult d with
      | ok u =>
        simp only [hq, tryCatch, Except.ok.injEq] at hr
        rw [← hr]
        simp [hp, Except.isOk, Except.toBool]
      | error e2 =>
        simp only [hq, tryCatch, Except.ok.injEq] at hr
        rw [← hr]
        simp [hp, Except.isOk, Except.toBool, signupCatch]
  · unfold signin signinBody at hs
    cases hp : SignInFormSchema_safeParse w with
    | error fe =>
      rw [hp] at hs
      simp only [tryCatch, Except.ok.injEq] at hs
      rw [← hs]
      simp [hp, Except.isOk, Except.toBool]
    | ok d =>
      rw [hp] at hs
      cases hq : pb.signInWithPasswordResult w with
      | ok u =>
        simp only [hq, tryCatch, Except.ok.injEq] at hs
        rw [← hs]
        simp [hp, Except.isOk, Except.toBool]
      | error e2 =>
        simp only [hq, tryCatch, Except.ok.injEq] at hs
        rw [← hs]
        simp [hp, Except.isOk, Except.toBool, signinCatch]

/-- C9 (witness): the theorem applied to the invalid input
`{email: "x", password: "a"}` under the all-ok behaviour. -/
theorem C9_witness :
    ((((signup pbAllOk badCred).1.toOption.get (by rfl)).zod_errors.isSome = true ↔
        (SignUpFormSchema_safeParse badCred).isOk = false) ∧
     (((signup pbAllOk badCred).1.toOption.get (by rfl)).zod_errors.isSome = true →
        ((signup pbAllOk badCred).1.toOption.get (by rfl)).success = false ∧
        ((signup pbAllOk badCred).1.toOption.get (by rfl)).message =
          "Form validation error")) ∧
    ((((signin pbAllOk badCred).1.toOption.get (by rfl)).zod_errors.isSome = true ↔
        (SignInFormSchema_safeParse badCred).isOk = false) ∧
     (((signin pbAllOk badCred).1.toOption.get (by rfl)).zod_errors.isSome = true →
        ((signin pbAllOk badCred).1.toOption.get (by rfl)).success = false ∧
        ((signin pbAllOk badCred).1.toOption.get (by rfl)).message =
          "Form validation error")) :=
  C9_zod_errors_validation pbAllOk badCred badCred
    ((signup pbAllOk badCred).1.toOption.get (by rfl))
    ((signin pbAllOk badCred).1.toOption.get (by rfl))
    (by rfl) (by rfl)

/-- C10: `signOAuth` ignores the process environment and always calls
the OAuth initiation with `redirectTo: ""`; the configured base URL is
used only by `forgotPassword`, which appends "/reset-password" to it. -/
theorem C10_oauth_redirect_env_independent (env env2 pName : String)
    (pb : ProviderBehavior) (f : ForgotInput) :
    signOAuth env pb pName = signOAuth env2 pb pName ∧
    (signOAuth env pb pName).2 = [.signInWithOAuth pName ""] ∧
    (forgotPassword env pb f).2 =
      [.resetPasswordForEmail f.email (env ++ "/reset-password")] := by
  refine ⟨rfl, ?_, ?_⟩
  · simp only [signOAuth, signOAuthBody]
    cases pb.signInWithOAuthResult pName "" with
    | ok b => cases b <;> rfl
    | error e => rfl
  · simp only [forgotPassword, forgotPasswordBody]
    cases pb.resetPasswordForEmailResult f.email (env ++ "/reset-password") <;>
      rfl

end Gatekeeper
